import Mathlib

/-!
Verification development for the Labelgood print backend
(`src/src-tauri/src/lib.rs`).

The source is a Tauri backend exposing three commands: `greet`,
`list_printers` and `generate_pdf`.  We give a shallow embedding of
`list_printers` and `generate_pdf`.  External effects (temp-file
creation, process spawning, the filesystem existence check, the
`opener::open` call) are modelled by an explicit environment record
`Env` describing the outcome of each external interaction, and the
embedded `generate_pdf` returns both the `Result<String, String>`
value and the ordered trace of externally visible events (file writes,
process invocations, file opens, file deletions) that the Rust code
performs on that environment.

Numeric conventions: Rust `f64` values are modelled as `ℚ` (the
decimal display of `f64` inside `format!` strings is abstracted by the
canonical rational rendering; the integer narrowing `as u32`, which is
what the claims are about, is modelled exactly: truncation toward zero
saturated to the `u32` range).  Rust `&str::lines` followed by
trimming is modelled by kernel-computable character-list functions
(`string_lines`, `rust_trim`); the `\r` of a CRLF line is removed by
the trim, as in Rust.
-/

/-- `struct PrintOptions` (lib.rs lines 6-12): the single invocation
payload of `generate_pdf`.  Note the content field is markup text
(`html`); there is no raster/base64 variant in the source. -/
structure PrintOptions where
  html : String
  width_mm : ℚ
  height_mm : ℚ
  printer_name : Option String
deriving Repr, DecidableEq

/-- Outcome of one `Command::new(..)...output()` call:
`notFound e` models `Err(e)` (the program could not be executed, e.g.
not installed); `ran success stdout stderr` models `Ok(output)` with
`output.status.success() = success` and the captured streams. -/
inductive SpawnOutcome where
  | notFound (err : String)
  | ran (success : Bool) (stdout stderr : String)
deriving Repr, DecidableEq

/-- Environment of one `generate_pdf` invocation: the outcome of each
external interaction the Rust function performs, in program order. -/
structure Env where
  /-- `Builder::new().suffix(".html").tempfile()`: the created temp
  file's path, or the error message. -/
  tempfileResult : Except String String
  /-- `fs::write(&html_path, &options.html)`. -/
  writeResult : Except String Unit
  /-- `std::env::temp_dir()` rendered as a string. -/
  tempDir : String
  /-- `SystemTime::now().duration_since(UNIX_EPOCH).as_millis()`. -/
  nowMillis : Nat
  /-- Outcome of the `wkhtmltopdf` invocation. -/
  wkhtmltopdf : SpawnOutcome
  /-- Outcome of the `weasyprint` invocation (only reached when
  `wkhtmltopdf` is not found). -/
  weasyprint : SpawnOutcome
  /-- `std::path::Path::new(&pdf_path_str).exists()` at the time of
  the check in the print branch. -/
  pdfExists : Bool
  /-- Outcome of the `lpr` invocation. -/
  lpr : SpawnOutcome
  /-- `opener::open(&pdf_path_str)`. -/
  openerResult : Except String Unit
deriving Repr

/-- Externally visible events of one invocation, in order. -/
inductive Event where
  /-- A process spawn attempt (`Command::new(program)` with the given
  argument list, `.output()`). -/
  | proc (program : String) (args : List String)
  /-- `fs::write(path, content)`. -/
  | writeFile (path content : String)
  /-- `opener::open(path)`. -/
  | openFile (path : String)
  /-- Deletion of a file (the `tempfile::NamedTempFile` drop). -/
  | deleteFile (path : String)
deriving Repr, DecidableEq

/-- `format!("label_{}.pdf", millis)` (lib.rs line 57). -/
def pdf_filename (nowMillis : Nat) : String :=
  "label_" ++ toString nowMillis ++ ".pdf"

/-- `temp_dir.join(pdf_filename)` (lib.rs line 61), with `/` as the
path separator. -/
def pdf_path (tempDir : String) (nowMillis : Nat) : String :=
  tempDir ++ "/" ++ pdf_filename nowMillis

/-- Rust `as u32` applied to a nonnegative-or-negative `f64` value,
modelled on `ℚ`: truncation toward zero, saturating to `[0, 2^32-1]`
(a negative value truncates/saturates to `0`).  `Rat.floor` is the
executable floor of `ℚ`, equal to `⌊·⌋` (`Rat.floor_def'`). -/
def f64_as_u32 (x : ℚ) : Nat :=
  if x < 0 then 0 else min (Int.toNat x.floor) (2 ^ 32 - 1)

/-- `format!("{}mm", v)`: millimetre argument for `wkhtmltopdf`. -/
def mm_arg (v : ℚ) : String := toString v ++ "mm"

/-- Argument list of the `wkhtmltopdf` invocation (lib.rs lines
67-77). -/
def wkhtmltopdf_args (o : PrintOptions) (html_path pdf_path_str : String) :
    List String :=
  ["--page-width", mm_arg o.width_mm,
   "--page-height", mm_arg o.height_mm,
   "--margin-top", "0", "--margin-bottom", "0",
   "--margin-left", "0", "--margin-right", "0",
   "--disable-smart-shrinking",
   html_path, pdf_path_str]

/-- Argument list of the `weasyprint` invocation (lib.rs lines
145-149). -/
def weasyprint_args (o : PrintOptions) (html_path pdf_path_str : String) :
    List String :=
  [html_path, pdf_path_str,
   "--page-size", toString o.width_mm ++ "mm " ++ toString o.height_mm ++ "mm"]

/-- The `lpr` spool command built in the branch following a successful
`wkhtmltopdf` render (lib.rs lines 90-107): program name and argument
list, including the `PageSize=Custom.WxH` media descriptor in tenths
of a millimetre (`(mm * 10.0) as u32`). -/
def spool_command_after_wkhtmltopdf (o : PrintOptions)
    (printer_name pdf_path_str : String) : String × List String :=
  let width_tenths := f64_as_u32 (o.width_mm * 10)
  let height_tenths := f64_as_u32 (o.height_mm * 10)
  let page_size :=
    "PageSize=Custom." ++ toString width_tenths ++ "x" ++ toString height_tenths
  ("lpr",
   ["-P", printer_name,
    "-o", page_size,
    "-o", "fit-to-page=false",
    "-o", "scaling=100",
    "-o", "print-scaling=none",
    pdf_path_str])

/-- The `lpr` spool command built in the branch following a successful
`weasyprint` render (lib.rs lines 162-179): a verbatim duplicate of
the wkhtmltopdf-branch construction in the source. -/
def spool_command_after_weasyprint (o : PrintOptions)
    (printer_name pdf_path_str : String) : String × List String :=
  let width_tenths := f64_as_u32 (o.width_mm * 10)
  let height_tenths := f64_as_u32 (o.height_mm * 10)
  let page_size :=
    "PageSize=Custom." ++ toString width_tenths ++ "x" ++ toString height_tenths
  ("lpr",
   ["-P", printer_name,
    "-o", page_size,
    "-o", "fit-to-page=false",
    "-o", "scaling=100",
    "-o", "print-scaling=none",
    pdf_path_str])

/-- The static error message returned when neither renderer's program
can be executed (lib.rs lines 209-214). -/
def no_pdf_generator_msg : String :=
  "No PDF generator found. Please install wkhtmltopdf or weasyprint:\n" ++
  " - Fedora: sudo dnf install wkhtmltopdf\n" ++
  " - Ubuntu/Debian: sudo apt install wkhtmltopdf\n" ++
  " - Arch: sudo pacman -S wkhtmltopdf"

/-- The print-or-view dispatch block following a successful
`wkhtmltopdf` render (lib.rs lines 83-130).  Returns the
`Result<String, String>` value and the events of the dispatch itself
(the caller prepends the render events and appends the temp-file
drop). -/
def dispatch_after_wkhtmltopdf (env : Env) (options : PrintOptions)
    (pdf_path_str : String) : Except String String × List Event :=
  match options.printer_name with
  | some printer_name =>
    if env.pdfExists then
      let cmd := spool_command_after_wkhtmltopdf options printer_name pdf_path_str
      let lpr_ev := Event.proc cmd.1 cmd.2
      match env.lpr with
      | .ran true _ _ =>
        (.ok ("Printed to " ++ printer_name), [lpr_ev])
      | .ran false _ stderr =>
        (.error ("Failed to print: " ++ stderr), [lpr_ev])
      | .notFound e =>
        (.error ("Failed to execute lpr command: " ++ e), [lpr_ev])
    else
      (.error ("PDF file does not exist at: " ++ pdf_path_str), [])
  | none =>
    match env.openerResult with
    | .ok _ => (.ok pdf_path_str, [Event.openFile pdf_path_str])
    | .error e =>
      (.error ("Failed to open PDF: " ++ e), [Event.openFile pdf_path_str])

/-- The print-or-view dispatch block following a successful
`weasyprint` render (lib.rs lines 155-202): a verbatim duplicate of
the wkhtmltopdf-branch dispatch in the source, using the
weasyprint-branch spool-command construction. -/
def dispatch_after_weasyprint (env : Env) (options : PrintOptions)
    (pdf_path_str : String) : Except String String × List Event :=
  match options.printer_name with
  | some printer_name =>
    if env.pdfExists then
      let cmd := spool_command_after_weasyprint options printer_name pdf_path_str
      let lpr_ev := Event.proc cmd.1 cmd.2
      match env.lpr with
      | .ran true _ _ =>
        (.ok ("Printed to " ++ printer_name), [lpr_ev])
      | .ran false _ stderr =>
        (.error ("Failed to print: " ++ stderr), [lpr_ev])
      | .notFound e =>
        (.error ("Failed to execute lpr command: " ++ e), [lpr_ev])
    else
      (.error ("PDF file does not exist at: " ++ pdf_path_str), [])
  | none =>
    match env.openerResult with
    | .ok _ => (.ok pdf_path_str, [Event.openFile pdf_path_str])
    | .error e =>
      (.error ("Failed to open PDF: " ++ e), [Event.openFile pdf_path_str])

/-- `generate_pdf` (lib.rs lines 42-217).  Returns the
`Result<String, String>` together with the ordered event trace.  The
temp HTML file is dropped (deleted) on every return path after its
creation succeeded, mirroring the `tempfile::NamedTempFile` drop at
the end of the Rust scope; the generated PDF path is a plain path,
never deleted by the function. -/
def generate_pdf (env : Env) (options : PrintOptions) :
    Except String String × List Event :=
  match env.tempfileResult with
  | .error e => (.error ("Failed to create temp HTML file: " ++ e), [])
  | .ok html_path =>
    match env.writeResult with
    | .error e =>
      (.error ("Failed to write HTML file: " ++ e), [Event.deleteFile html_path])
    | .ok _ =>
      let write_ev := Event.writeFile html_path options.html
      let pdf_path_str := pdf_path env.tempDir env.nowMillis
      let wk_ev :=
        Event.proc "wkhtmltopdf" (wkhtmltopdf_args options html_path pdf_path_str)
      match env.wkhtmltopdf with
      | .ran true _ _ =>
        let (res, evs) := dispatch_after_wkhtmltopdf env options pdf_path_str
        (res, write_ev :: wk_ev :: (evs ++ [Event.deleteFile html_path]))
      | .ran false _ stderr =>
        (.error ("wkhtmltopdf failed: " ++ stderr),
         [write_ev, wk_ev, Event.deleteFile html_path])
      | .notFound _ =>
        let weasy_ev :=
          Event.proc "weasyprint" (weasyprint_args options html_path pdf_path_str)
        match env.weasyprint with
        | .ran true _ _ =>
          let (res, evs) := dispatch_after_weasyprint env options pdf_path_str
          (res, write_ev :: wk_ev :: weasy_ev ::
                  (evs ++ [Event.deleteFile html_path]))
        | .ran false _ stderr =>
          (.error ("weasyprint failed: " ++ stderr),
           [write_ev, wk_ev, weasy_ev, Event.deleteFile html_path])
        | .notFound _ =>
          (.error no_pdf_generator_msg,
           [write_ev, wk_ev, weasy_ev, Event.deleteFile html_path])

/-- Split a character list at every occurrence of `sep` (the pieces do
not contain `sep`; `n` separators yield `n + 1` pieces). -/
def split_on_char (sep : Char) : List Char → List (List Char)
  | [] => [[]]
  | c :: rest =>
    match split_on_char sep rest with
    | [] => [[]]
    | h :: t => if c = sep then [] :: h :: t else (c :: h) :: t

/-- The lines of a captured stdout: split on `'\n'`.  (Rust's
`str::lines` also strips a trailing `\r` per line and drops the empty
piece after a trailing newline; both differences are erased by the
subsequent trim-and-discard-blanks step of `list_printers`, since the
trim removes the `\r` and the extra piece is blank.) -/
def string_lines (s : String) : List String :=
  (split_on_char '\n' s.data).map String.mk

/-- Rust `str::trim`: drop leading and trailing whitespace.  (Rust
trims the full Unicode White_Space set; `Char.isWhitespace` covers the
ASCII subset, which is all that `lpstat` line output contains.) -/
def rust_trim (s : String) : String :=
  ⟨((s.data.dropWhile Char.isWhitespace).reverse.dropWhile
      Char.isWhitespace).reverse⟩

/-- `list_printers` (lib.rs lines 20-40), over the outcome of the
`lpstat -e` invocation. -/
def list_printers (lpstat : SpawnOutcome) : Except String (List String) :=
  match lpstat with
  | .notFound e => .error ("Failed to execute lpstat: " ++ e)
  | .ran success stdout _ =>
    if success then
      .ok ((((string_lines stdout).map rust_trim).filter
              (fun line => !line.data.isEmpty)))
    else
      .error "Failed to get printer list"

/-- Round half away from zero to the nearest integer — the rounding
the specification prescribes for the millimetres-to-tenths
conversion (stated with the executable `Rat.floor`). -/
def round_half_away_from_zero (x : ℚ) : Int :=
  if x < 0 then -((-x + 1 / 2).floor) else (x + 1 / 2).floor

/-- `Event.proc prog _` recogniser, for counting the invocations of a
given external program in a trace. -/
def is_proc_of (program : String) : Event → Bool
  | .proc p _ => p == program
  | _ => false

/-- `Event.deleteFile _` recogniser. -/
def is_delete_event : Event → Bool
  | .deleteFile _ => true
  | _ => false

/-- The first list starts the second list. -/
def char_list_starts : List Char → List Char → Bool
  | [], _ => true
  | _ :: _, [] => false
  | a :: as, b :: bs => a == b && char_list_starts as bs

/-- `needle` occurs as a contiguous sublist of `haystack`. -/
def char_list_contains_seq (needle : List Char) : List Char → Bool
  | [] => needle.isEmpty
  | c :: rest =>
    char_list_starts needle (c :: rest) || char_list_contains_seq needle rest

/-- `needle` occurs as a substring of `haystack`. -/
def mentions (needle haystack : String) : Bool :=
  char_list_contains_seq needle.data haystack.data

/-- The executable floor on `ℚ` agrees with `⌊·⌋`. -/
theorem rat_floor_eq_intFloor (q : ℚ) : q.floor = ⌊q⌋ := by
  rw [Rat.floor_def', Rat.floor_def]

/-- C1: FALSE as stated.  The code converts millimetres to tenths by
`(mm * 10.0) as u32` — truncation toward zero, not
round-half-away-from-zero.  At `width_mm = 62.05` (`1241/20`) and
`height_mm = 50` the media descriptor reads `Custom.620x500`, i.e.
`62.05 mm` maps to `620` tenths, while `round(62.05 * 10)` under
round-half-away-from-zero is `621`. -/
theorem C1_counterexample :
    f64_as_u32 ((1241 / 20 : ℚ) * 10) = 620 ∧
    (spool_command_after_wkhtmltopdf
        ⟨"<p>x</p>", 1241 / 20, 50, some "P"⟩ "P" "/tmp/label_0.pdf").2[3]? =
      some "PageSize=Custom.620x500" ∧
    round_half_away_from_zero ((1241 / 20 : ℚ) * 10) = 621 := by
  have h1 : f64_as_u32 ((1241 / 20 : ℚ) * 10) = 620 := by
    rw [f64_as_u32, if_neg (by norm_num), rat_floor_eq_intFloor]
    norm_num
    rfl
  have h2 : f64_as_u32 ((50 : ℚ) * 10) = 500 := by
    rw [f64_as_u32, if_neg (by norm_num), rat_floor_eq_intFloor]
    norm_num
    rfl
  refine ⟨h1, ?_, ?_⟩
  · simp only [spool_command_after_wkhtmltopdf, h1, h2]
    rfl
  · rw [round_half_away_from_zero, if_neg (by norm_num), rat_floor_eq_intFloor]
    norm_num

/-- C1 (amended): the millimetres-to-tenths conversion used to build
the print media descriptor is truncation toward zero (`as u32`)
saturated to the `u32` range: for every nonnegative `width_mm` whose
scaled value stays in range, the tenths value is `⌊width_mm * 10⌋`
(so e.g. `62.05 mm` maps to `620` tenths, not `621`). -/
theorem C1_conversion_truncates (w : ℚ) (h0 : 0 ≤ w)
    (hlt : ⌊w * 10⌋ < 2 ^ 32) :
    (f64_as_u32 (w * 10) : ℤ) = ⌊w * 10⌋ := by
  have h10 : (0 : ℚ) ≤ w * 10 := by positivity
  rw [f64_as_u32, if_neg (not_lt.mpr h10), rat_floor_eq_intFloor]
  have hf0 : (0 : ℤ) ≤ ⌊w * 10⌋ := Int.floor_nonneg.mpr h10
  have h1 : Int.toNat ⌊w * 10⌋ ≤ 2 ^ 32 - 1 := by omega
  rw [min_eq_left h1]
  omega

/-- Witness for `C1_conversion_truncates` at `width_mm = 62.05`. -/
theorem C1_conversion_truncates_witness :
    (0 : ℚ) ≤ 1241 / 20 ∧ ⌊(1241 / 20 : ℚ) * 10⌋ < 2 ^ 32 ∧
    (f64_as_u32 ((1241 / 20 : ℚ) * 10) : ℤ) = ⌊(1241 / 20 : ℚ) * 10⌋ :=
  ⟨by norm_num, by norm_num,
   C1_conversion_truncates (1241 / 20) (by norm_num) (by norm_num)⟩

/-- C10: the spool command constructed after a successful wkhtmltopdf
render is identical — same program name and same argument list,
including the media descriptor and the scaling options — to the one
constructed after a successful weasyprint render of the same request;
consequently the `lpr` invocations recorded by `generate_pdf` in the
two branches coincide. -/
theorem C10_spool_commands_equal :
    (∀ (o : PrintOptions) (printer pdfp : String),
      spool_command_after_wkhtmltopdf o printer pdfp =
        spool_command_after_weasyprint o printer pdfp) ∧
    (∀ (hp td : String) (n : Nat) (so se so2 se2 : String)
       (lp : SpawnOutcome) (op : Except String Unit) (o : PrintOptions),
      ((generate_pdf
          ⟨.ok hp, .ok (), td, n, .ran true so se, .ran true so2 se2,
           true, lp, op⟩ o).2.filter (is_proc_of "lpr")) =
      ((generate_pdf
          ⟨.ok hp, .ok (), td, n, .notFound se, .ran true so2 se2,
           true, lp, op⟩ o).2.filter (is_proc_of "lpr"))) := by
  constructor
  · intro o printer pdfp
    rfl
  · intro hp td n so se so2 se2 lp op o
    obtain ⟨html, w, h, pn⟩ := o
    rcases pn with _ | p <;>
      rcases lp with e3 | ⟨(_|_), so3, se3⟩ <;>
      rcases op with e4 | u <;>
      rfl

/-- C2: FALSE as stated.  When wkhtmltopdf runs but exits non-zero,
`generate_pdf` returns the wkhtmltopdf error immediately: weasyprint
is never attempted, even in an environment where it would succeed. -/
theorem C2_counterexample :
    ((generate_pdf
        ⟨.ok "/tmp/in.html", .ok (), "/tmp", 7, .ran false "" "boom",
         .ran true "" "", true, .ran true "" "", .ok ()⟩
        ⟨"<p>x</p>", 62, 100, none⟩).1 =
      .error "wkhtmltopdf failed: boom") ∧
    ((generate_pdf
        ⟨.ok "/tmp/in.html", .ok (), "/tmp", 7, .ran false "" "boom",
         .ran true "" "", true, .ran true "" "", .ok ()⟩
        ⟨"<p>x</p>", 62, 100, none⟩).2.filter (is_proc_of "weasyprint")) =
      [] :=
  ⟨rfl, rfl⟩

/-- C2 (amended): the chain proceeds from wkhtmltopdf to weasyprint
only when the wkhtmltopdf program cannot be executed at all (not
found); whenever wkhtmltopdf runs and exits non-zero, `generate_pdf`
returns `wkhtmltopdf failed: <stderr>` immediately and weasyprint is
never invoked, regardless of the rest of the environment. -/
theorem C2_nonzero_exit_aborts_chain :
    ∀ (hp td : String) (n : Nat) (so se : String) (wz : SpawnOutcome)
      (pe : Bool) (lp : SpawnOutcome) (op : Except String Unit)
      (o : PrintOptions),
    ((generate_pdf ⟨.ok hp, .ok (), td, n, .ran false so se, wz, pe, lp, op⟩
        o).1 = .error ("wkhtmltopdf failed: " ++ se)) ∧
    ((generate_pdf ⟨.ok hp, .ok (), td, n, .ran false so se, wz, pe, lp, op⟩
        o).2.filter (is_proc_of "weasyprint")) = [] :=
  fun _ _ _ _ _ _ _ _ _ _ => ⟨rfl, rfl⟩

/-- C3: FALSE as stated.  `generate_pdf` performs no dimension
validation: with `width_mm = 0` (and a printer set) it still invokes
wkhtmltopdf and then `lpr`, and returns success — not a validation
error with zero process invocations. -/
theorem C3_counterexample :
    ((generate_pdf
        ⟨.ok "/tmp/in.html", .ok (), "/tmp", 11, .ran true "" "",
         .ran true "" "", true, .ran true "" "", .ok ()⟩
        ⟨"<p>x</p>", 0, 100, some "P"⟩).1 = .ok "Printed to P") ∧
    ((generate_pdf
        ⟨.ok "/tmp/in.html", .ok (), "/tmp", 11, .ran true "" "",
         .ran true "" "", true, .ran true "" "", .ok ()⟩
        ⟨"<p>x</p>", 0, 100, some "P"⟩).2.countP
          (is_proc_of "wkhtmltopdf")) = 1 ∧
    ((generate_pdf
        ⟨.ok "/tmp/in.html", .ok (), "/tmp", 11, .ran true "" "",
         .ran true "" "", true, .ran true "" "", .ok ()⟩
        ⟨"<p>x</p>", 0, 100, some "P"⟩).2.countP (is_proc_of "lpr")) = 1 :=
  ⟨rfl, rfl, rfl⟩

/-- C3 (amended): `generate_pdf` performs no dimension validation at
all: for every request — including `width_mm ≤ 0` or
`height_mm ≤ 0` — once the temp input file is created and written,
the renderer is invoked exactly once with the given dimensions; no
branch returns a validation error. -/
theorem C3_no_dimension_validation :
    ∀ (hp td : String) (n : Nat) (wk wz : SpawnOutcome) (pe : Bool)
      (lp : SpawnOutcome) (op : Except String Unit) (o : PrintOptions),
    ((generate_pdf ⟨.ok hp, .ok (), td, n, wk, wz, pe, lp, op⟩ o).2.countP
      (is_proc_of "wkhtmltopdf")) = 1 := by
  intro hp td n wk wz pe lp op o
  obtain ⟨html, w, h, pn⟩ := o
  rcases wk with e | ⟨(_|_), so, se⟩ <;>
    rcases wz with e2 | ⟨(_|_), so2, se2⟩ <;>
    rcases pn with _ | p <;>
    rcases pe with _ | _ <;>
    rcases lp with e3 | ⟨(_|_), so3, se3⟩ <;>
    rcases op with e4 | u <;>
    rfl

/-- C4: FALSE as stated.  In the view branch (no printer requested)
`generate_pdf` declares success naming the output path without any
existence check: here the environment reports the PDF file does NOT
exist (`pdfExists = false`), the opener call succeeds, and the
function still returns `Ok` with the output path. -/
theorem C4_counterexample :
    (generate_pdf
        ⟨.ok "/tmp/in.html", .ok (), "/tmp", 5, .ran true "" "",
         .ran true "" "", false, .ran true "" "", .ok ()⟩
        ⟨"x", 62, 100, none⟩).1 = .ok "/tmp/label_5.pdf" :=
  rfl

/-- C4 (amended): the output-file existence check guards only the
print branch: with a printer set and the file absent, both render
branches fail with `PDF file does not exist at: <path>`; in the view
branch the path is handed to the opener and returned as success with
no existence check, even when the file is absent. -/
theorem C4_existence_check_print_branch_only :
    ∀ (hp td : String) (n : Nat) (so se so2 se2 ne : String)
      (lp : SpawnOutcome) (op : Except String Unit)
      (html : String) (w h : ℚ) (p : String),
    ((generate_pdf ⟨.ok hp, .ok (), td, n, .ran true so se,
        .ran true so2 se2, false, lp, op⟩ ⟨html, w, h, some p⟩).1 =
      .error ("PDF file does not exist at: " ++ pdf_path td n)) ∧
    ((generate_pdf ⟨.ok hp, .ok (), td, n, .notFound ne,
        .ran true so2 se2, false, lp, op⟩ ⟨html, w, h, some p⟩).1 =
      .error ("PDF file does not exist at: " ++ pdf_path td n)) ∧
    ((generate_pdf ⟨.ok hp, .ok (), td, n, .ran true so se,
        .ran true so2 se2, false, lp, .ok ()⟩ ⟨html, w, h, none⟩).1 =
      .ok (pdf_path td n)) ∧
    ((generate_pdf ⟨.ok hp, .ok (), td, n, .notFound ne,
        .ran true so2 se2, false, lp, .ok ()⟩ ⟨html, w, h, none⟩).1 =
      .ok (pdf_path td n)) :=
  fun _ _ _ _ _ _ _ _ _ _ _ _ _ _ => ⟨rfl, rfl, rfl, rfl⟩

/-- C5: FALSE as stated.  The invocation surface carries only markup
text (`html : String`): there is no raster variant and no base64
decoding.  A payload that is not valid base64 (here a data-URI-style
string with an ill-formed base64 tail) is written to the input file
verbatim and the renderer IS attempted; the invocation succeeds
rather than reporting a validation error. -/
theorem C5_counterexample :
    generate_pdf
        ⟨.ok "/tmp/in.html", .ok (), "/tmp", 7, .ran true "" "",
         .ran true "" "", true, .ran true "" "", .ok ()⟩
        ⟨"data:image/png;base64,!!!", 62, 100, none⟩ =
      (.ok "/tmp/label_7.pdf",
       [.writeFile "/tmp/in.html" "data:image/png;base64,!!!",
        .proc "wkhtmltopdf"
          (wkhtmltopdf_args ⟨"data:image/png;base64,!!!", 62, 100, none⟩
            "/tmp/in.html" "/tmp/label_7.pdf"),
        .openFile "/tmp/label_7.pdf",
        .deleteFile "/tmp/in.html"]) :=
  rfl

/-- C5 (amended): the invocation surface accepts only markup text; for
every request the content string is materialized verbatim (the first
event is the write of `options.html`, with no prefix stripping and no
base64 decoding), and the renderer is then always attempted (the
second event is the wkhtmltopdf invocation) — decoding failures
cannot arise and no validation error path exists. -/
theorem C5_content_written_verbatim :
    ∀ (hp td : String) (n : Nat) (wk wz : SpawnOutcome) (pe : Bool)
      (lp : SpawnOutcome) (op : Except String Unit) (o : PrintOptions),
    ((generate_pdf ⟨.ok hp, .ok (), td, n, wk, wz, pe, lp, op⟩ o).2.head? =
      some (.writeFile hp o.html)) ∧
    ((generate_pdf ⟨.ok hp, .ok (), td, n, wk, wz, pe, lp, op⟩ o).2[1]? =
      some (.proc "wkhtmltopdf" (wkhtmltopdf_args o hp (pdf_path td n)))) := by
  intro hp td n wk wz pe lp op o
  obtain ⟨html, w, h, pn⟩ := o
  rcases wk with e | ⟨(_|_), so, se⟩ <;>
    rcases wz with e2 | ⟨(_|_), so2, se2⟩ <;>
    rcases pn with _ | p <;>
    rcases pe with _ | _ <;>
    rcases lp with e3 | ⟨(_|_), so3, se3⟩ <;>
    rcases op with e4 | u <;>
    exact ⟨rfl, rfl⟩

/-- C6: FALSE as stated.  When every adapter fails (wkhtmltopdf not
found, weasyprint ran and failed), the returned error carries only the
last engine's text — `weasyprint failed: weasy-boom` — and no
(adapter, reason) entry for wkhtmltopdf, although both adapters were
tried (one spawn attempt each is in the trace). -/
theorem C6_counterexample :
    ((generate_pdf
        ⟨.ok "/tmp/in.html", .ok (), "/tmp", 9, .notFound "nf",
         .ran false "" "weasy-boom", true, .ran true "" "", .ok ()⟩
        ⟨"<p>x</p>", 62, 100, some "P"⟩).1 =
      .error "weasyprint failed: weasy-boom") ∧
    ((generate_pdf
        ⟨.ok "/tmp/in.html", .ok (), "/tmp", 9, .notFound "nf",
         .ran false "" "weasy-boom", true, .ran true "" "", .ok ()⟩
        ⟨"<p>x</p>", 62, 100, some "P"⟩).2.countP
          (is_proc_of "wkhtmltopdf")) = 1 ∧
    ((generate_pdf
        ⟨.ok "/tmp/in.html", .ok (), "/tmp", 9, .notFound "nf",
         .ran false "" "weasy-boom", true, .ran true "" "", .ok ()⟩
        ⟨"<p>x</p>", 62, 100, some "P"⟩).2.countP
          (is_proc_of "weasyprint")) = 1 ∧
    mentions "wkhtmltopdf" "weasyprint failed: weasy-boom" = false :=
  ⟨rfl, rfl, rfl, by decide⟩

/-- C6 (amended): on total exhaustion the error carries no attempt
log: when wkhtmltopdf is not found and weasyprint runs and fails, the
error is exactly `weasyprint failed: <weasyprint stderr>` (the
wkhtmltopdf entry is dropped); when neither program can be executed,
the error is the static installation-instructions message, which
preserves neither spawn error. -/
theorem C6_no_attempt_log :
    ∀ (hp td : String) (n : Nat) (ne so se we : String) (pe : Bool)
      (lp : SpawnOutcome) (op : Except String Unit) (o : PrintOptions),
    ((generate_pdf ⟨.ok hp, .ok (), td, n, .notFound ne, .ran false so se,
        pe, lp, op⟩ o).1 = .error ("weasyprint failed: " ++ se)) ∧
    ((generate_pdf ⟨.ok hp, .ok (), td, n, .notFound ne, .notFound we,
        pe, lp, op⟩ o).1 = .error no_pdf_generator_msg) :=
  fun _ _ _ _ _ _ _ _ _ _ _ => ⟨rfl, rfl⟩

/-- C7: for every print dispatch (printer set, renderer succeeded,
output file present) — in the wkhtmltopdf branch and in the
weasyprint branch alike — the spool invocation is `lpr` with the
`PageSize=Custom.WxH` media descriptor built from the request's width
and height, plus `fit-to-page=false`, `scaling=100` and
`print-scaling=none`; a zero exit of `lpr` is the sole success signal
(`Printed to <printer>`), a non-zero exit is reported as
`Failed to print: <stderr>` with the captured stderr verbatim, and a
spawn failure as `Failed to execute lpr command: <err>`. -/
theorem C7_spool_command_and_exit_status :
    ∀ (hp td : String) (n : Nat) (so se so2 se2 ne lso lse le : String)
      (op : Except String Unit) (html : String) (w h : ℚ) (p : String),
    (generate_pdf ⟨.ok hp, .ok (), td, n, .ran true so se,
        .ran true so2 se2, true, .ran true lso lse, op⟩
        ⟨html, w, h, some p⟩ =
      (.ok ("Printed to " ++ p),
       [.writeFile hp html,
        .proc "wkhtmltopdf"
          (wkhtmltopdf_args ⟨html, w, h, some p⟩ hp (pdf_path td n)),
        .proc "lpr"
          ["-P", p,
           "-o", "PageSize=Custom." ++ toString (f64_as_u32 (w * 10)) ++
                   "x" ++ toString (f64_as_u32 (h * 10)),
           "-o", "fit-to-page=false",
           "-o", "scaling=100",
           "-o", "print-scaling=none",
           pdf_path td n],
        .deleteFile hp])) ∧
    ((generate_pdf ⟨.ok hp, .ok (), td, n, .ran true so se,
        .ran true so2 se2, true, .ran false lso lse, op⟩
        ⟨html, w, h, some p⟩).1 = .error ("Failed to print: " ++ lse)) ∧
    ((generate_pdf ⟨.ok hp, .ok (), td, n, .ran true so se,
        .ran true so2 se2, true, .notFound le, op⟩
        ⟨html, w, h, some p⟩).1 =
      .error ("Failed to execute lpr command: " ++ le)) ∧
    (generate_pdf ⟨.ok hp, .ok (), td, n, .notFound ne,
        .ran true so2 se2, true, .ran true lso lse, op⟩
        ⟨html, w, h, some p⟩ =
      (.ok ("Printed to " ++ p),
       [.writeFile hp html,
        .proc "wkhtmltopdf"
          (wkhtmltopdf_args ⟨html, w, h, some p⟩ hp (pdf_path td n)),
        .proc "weasyprint"
          (weasyprint_args ⟨html, w, h, some p⟩ hp (pdf_path td n)),
        .proc "lpr"
          ["-P", p,
           "-o", "PageSize=Custom." ++ toString (f64_as_u32 (w * 10)) ++
                   "x" ++ toString (f64_as_u32 (h * 10)),
           "-o", "fit-to-page=false",
           "-o", "scaling=100",
           "-o", "print-scaling=none",
           pdf_path td n],
        .deleteFile hp])) ∧
    ((generate_pdf ⟨.ok hp, .ok (), td, n, .notFound ne,
        .ran true so2 se2, true, .ran false lso lse, op⟩
        ⟨html, w, h, some p⟩).1 = .error ("Failed to print: " ++ lse)) ∧
    ((generate_pdf ⟨.ok hp, .ok (), td, n, .notFound ne,
        .ran true so2 se2, true, .notFound le, op⟩
        ⟨html, w, h, some p⟩).1 =
      .error ("Failed to execute lpr command: " ++ le)) :=
  fun _ _ _ _ _ _ _ _ _ _ _ _ _ _ _ _ => ⟨rfl, rfl, rfl, rfl, rfl, rfl⟩

/-- C8: `list_printers` returns an empty list — not an error — when
`lpstat` succeeds with no output; it returns an error exactly when the
command cannot be executed (`Failed to execute lpstat: <err>`) or
exits non-zero (`Failed to get printer list`); on success every
returned name is the trim of some output line and is non-blank, and
the returned names form a sublist of the trimmed output lines — the
subsystem's own order, with no sorting imposed. -/
theorem C8_list_printers_contract :
    ∀ (e so se stdout : String),
    (list_printers (.notFound e) =
      .error ("Failed to execute lpstat: " ++ e)) ∧
    (list_printers (.ran false so se) = .error "Failed to get printer list") ∧
    (list_printers (.ran true "" se) = .ok []) ∧
    (∃ l, list_printers (.ran true stdout se) = .ok l ∧
      (∀ name ∈ l, name.data.isEmpty = false ∧
        ∃ line ∈ string_lines stdout, name = rust_trim line) ∧
      l.Sublist ((string_lines stdout).map rust_trim)) := by
  intro e so se stdout
  refine ⟨rfl, rfl, rfl, ?_⟩
  refine ⟨_, rfl, ?_, ?_⟩
  · intro name hname
    rw [List.mem_filter] at hname
    obtain ⟨hmem, hne⟩ := hname
    refine ⟨by simpa using hne, ?_⟩
    obtain ⟨line, hline, rfl⟩ := List.mem_map.mp hmem
    exact ⟨line, hline, rfl⟩
  · exact List.filter_sublist _

/-- Witness for `C8_list_printers_contract` at a concrete `lpstat`
output with surrounding whitespace and a blank line. -/
theorem C8_list_printers_contract_witness :
    (list_printers (.notFound "not installed") =
      .error ("Failed to execute lpstat: " ++ "not installed")) ∧
    (list_printers (.ran false "o" "x") =
      .error "Failed to get printer list") ∧
    (list_printers (.ran true "" "x") = .ok []) ∧
    (∃ l, list_printers (.ran true " alpha \n\nbeta" "x") = .ok l ∧
      (∀ name ∈ l, name.data.isEmpty = false ∧
        ∃ line ∈ string_lines " alpha \n\nbeta", name = rust_trim line) ∧
      l.Sublist ((string_lines " alpha \n\nbeta").map rust_trim)) :=
  C8_list_printers_contract "not installed" "o" "x" " alpha \n\nbeta"

/-- Helper: in every branch of `generate_pdf` (after the temp input
file was created and written), the only file deletion in the event
trace is the drop of the temp input file. -/
theorem generate_pdf_deletes_only_input :
    ∀ (hp td : String) (n : Nat) (wk wz : SpawnOutcome) (pe : Bool)
      (lp : SpawnOutcome) (op : Except String Unit) (o : PrintOptions),
    ((generate_pdf ⟨.ok hp, .ok (), td, n, wk, wz, pe, lp, op⟩ o).2.filter
      is_delete_event) = [.deleteFile hp] := by
  intro hp td n wk wz pe lp op o
  obtain ⟨html, w, h, pn⟩ := o
  rcases wk with e | ⟨(_|_), so, se⟩ <;>
    rcases wz with e2 | ⟨(_|_), so2, se2⟩ <;>
    rcases pn with _ | p <;>
    rcases pe with _ | _ <;>
    rcases lp with e3 | ⟨(_|_), so3, se3⟩ <;>
    rcases op with e4 | u <;>
    rfl

/-- C9: the output PDF path is the OS shared temp directory joined
with the fixed prefix `label_`, the millisecond timestamp, and the
`.pdf` suffix; in every branch of the invocation the output file is
never deleted by the system (no delete event for it appears in the
trace), while the temporary input file — owned by the invocation —
is deleted when the invocation ends. -/
theorem C9_output_path_persists (hp td : String) (n : Nat)
    (wk wz : SpawnOutcome) (pe : Bool) (lp : SpawnOutcome)
    (op : Except String Unit) (o : PrintOptions)
    (hne : hp ≠ pdf_path td n) :
    (pdf_path td n = td ++ "/" ++ ("label_" ++ toString n ++ ".pdf")) ∧
    (Event.deleteFile (pdf_path td n) ∉
      (generate_pdf ⟨.ok hp, .ok (), td, n, wk, wz, pe, lp, op⟩ o).2) ∧
    (Event.deleteFile hp ∈
      (generate_pdf ⟨.ok hp, .ok (), td, n, wk, wz, pe, lp, op⟩ o).2) := by
  have hdel := generate_pdf_deletes_only_input hp td n wk wz pe lp op o
  refine ⟨rfl, ?_, ?_⟩
  · intro hmem
    have hfil : Event.deleteFile (pdf_path td n) ∈
        ((generate_pdf ⟨.ok hp, .ok (), td, n, wk, wz, pe, lp, op⟩ o).2.filter
          is_delete_event) :=
      List.mem_filter.mpr ⟨hmem, rfl⟩
    rw [hdel] at hfil
    simp only [List.mem_singleton, Event.deleteFile.injEq] at hfil
    exact hne hfil.symm
  · have hfil : Event.deleteFile hp ∈
        ((generate_pdf ⟨.ok hp, .ok (), td, n, wk, wz, pe, lp, op⟩ o).2.filter
          is_delete_event) := by
      rw [hdel]
      exact List.mem_singleton.mpr rfl
    exact List.mem_of_mem_filter hfil

/-- Witness for `C9_output_path_persists` at a concrete environment. -/
theorem C9_output_path_persists_witness :
    ("/tmp/in.html" ≠ pdf_path "/tmp" 5) ∧
    ((pdf_path "/tmp" 5 = "/tmp" ++ "/" ++ ("label_" ++ toString 5 ++ ".pdf")) ∧
     (Event.deleteFile (pdf_path "/tmp" 5) ∉
       (generate_pdf ⟨.ok "/tmp/in.html", .ok (), "/tmp", 5, .ran true "" "",
          .ran true "" "", true, .ran true "" "", .ok ()⟩
          ⟨"x", 62, 100, none⟩).2) ∧
     (Event.deleteFile "/tmp/in.html" ∈
       (generate_pdf ⟨.ok "/tmp/in.html", .ok (), "/tmp", 5, .ran true "" "",
          .ran true "" "", true, .ran true "" "", .ok ()⟩
          ⟨"x", 62, 100, none⟩).2)) :=
  ⟨by decide,
   C9_output_path_persists "/tmp/in.html" "/tmp" 5 (.ran true "" "")
     (.ran true "" "") true (.ran true "" "") (.ok ())
     ⟨"x", 62, 100, none⟩ (by decide)⟩
